import Mathlib

/-!
Verification of the serverless research-assistant handler
(`lambda_function.py`).

The handler is sequential glue code: it checks four environment-derived
configuration values, validates a JSON request body, invokes an external
LLM agent, writes the report to an object store (S3), writes a metadata
record to a key-value store (DynamoDB) and builds an HTTP-style response.

Shallow embedding conventions:
  * Python/JSON values are modelled by the inductive `Json`; the value an
    event carries under the key "body" is a `PyVal` (a string, or some
    non-string value).
  * `json.loads` is modelled by `json_loads`, an executable
    recursive-descent parser over the JSON subset relevant here
    (null/true/false/integer numbers/strings/arrays/objects); parse
    failure is a `PyExc` of kind "JSONDecodeError", a non-string argument
    a `PyExc` of kind "TypeError", matching the Python library.
  * The external SDK calls (agent construction and run, `put_object`,
    `put_item`, `uuid4`, `utcnow`) are an oracle `Ext`; the handler
    records every attempted agent/store call in a trace (`EffCall`),
    each tagged with whether the call succeeded or raised.
  * An uncaught Python exception is an `Except.error` result of the
    handler; a returned HTTP-style response is `Except.ok`.
-/

namespace LambdaFunction

/-- A Python exception, identified by its class name and message. -/
structure PyExc where
  kind : String
  msg : String
  deriving DecidableEq, Repr

/-- JSON / parsed-Python values as produced by `json.loads`:
`null`, booleans, (integer) numbers, strings, arrays, objects. -/
inductive Json where
  | null : Json
  | bool (b : Bool) : Json
  | num (n : Int) : Json
  | str (s : String) : Json
  | arr (elems : List Json) : Json
  | obj (fields : List (String × Json)) : Json

/-- Python truthiness (`if not x`): `None`, `False`, `0`, `""`, `[]` and
the empty dict are falsy, everything else truthy. -/
def Json.truthy : Json → Bool
  | .null => false
  | .bool b => b
  | .num n => n != 0
  | .str s => !s.isEmpty
  | .arr elems => !elems.isEmpty
  | .obj fields => !fields.isEmpty

/-- Lookup in a parsed JSON object; the last occurrence of a key wins,
mirroring how `json.loads` builds a `dict` (later duplicates overwrite). -/
def lookupLast (fields : List (String × Json)) (k : String) : Option Json :=
  (fields.reverse.find? (fun p => p.1 == k)).map (fun p => p.2)

/-- `dict.get(key)`: `None` when the key is absent; on any non-dict value
the attribute access `.get` raises an `AttributeError`. -/
def py_get (v : Json) (k : String) : Except PyExc (Option Json) :=
  match v with
  | .obj fields => .ok (lookupLast fields k)
  | _ => .error ⟨"AttributeError", "object has no attribute get"⟩

/-! ### `json.loads`: a recursive-descent parser for the JSON subset
(whitespace, null, true, false, integer numbers, strings with the
single-character escapes, arrays, objects). A fuel parameter bounds the
recursion; `json_loads` supplies enough fuel for its input. -/

/-- Skip JSON whitespace. -/
def skipWs : List Char → List Char
  | [] => []
  | c :: cs => if c = ' ' ∨ c = '\t' ∨ c = '\n' ∨ c = '\r' then skipWs cs else c :: cs

/-- Single-character JSON string escapes (`\uXXXX` is not modelled). -/
def escapeChar? (c : Char) : Option Char :=
  if c = '"' ∨ c = '\\' ∨ c = '/' then some c
  else if c = 'n' then some '\n'
  else if c = 't' then some '\t'
  else if c = 'r' then some '\r'
  else if c = 'b' then some (Char.ofNat 8)
  else if c = 'f' then some (Char.ofNat 12)
  else none

/-- Parse the body of a JSON string after the opening quote; returns the
characters and the remaining input after the closing quote. -/
def parseStringChars : Nat → List Char → Option (List Char × List Char)
  | 0, _ => none
  | _, [] => none
  | fuel + 1, c :: cs =>
    if c = '"' then some ([], cs)
    else if c = '\\' then
      match cs with
      | e :: cs2 =>
        match escapeChar? e with
        | some ch =>
          match parseStringChars fuel cs2 with
          | some (chars, rest) => some (ch :: chars, rest)
          | none => none
        | none => none
      | [] => none
    else
      match parseStringChars fuel cs with
      | some (chars, rest) => some (c :: chars, rest)
      | none => none

/-- Take a maximal run of decimal digits. -/
def takeDigits : List Char → List Char × List Char
  | [] => ([], [])
  | c :: cs =>
    if c.isDigit then
      let p := takeDigits cs
      (c :: p.1, p.2)
    else ([], c :: cs)

/-- Decimal value of a digit run. -/
def digitsToNat (ds : List Char) : Nat :=
  ds.foldl (fun acc c => 10 * acc + (c.toNat - 48)) 0

mutual

/-- Parse one JSON value (leading whitespace allowed). -/
def parseValue : Nat → List Char → Option (Json × List Char)
  | 0, _ => none
  | fuel + 1, cs =>
    match skipWs cs with
    | [] => none
    | c :: rest =>
      if c = '"' then
        match parseStringChars (rest.length + 1) rest with
        | some (chars, rest2) => some (.str (String.mk chars), rest2)
        | none => none
      else if c.toNat = 123 then
        match parseMembers fuel true rest with
        | some (fields, rest2) => some (.obj fields, rest2)
        | none => none
      else if c = '[' then
        match parseElems fuel true rest with
        | some (elems, rest2) => some (.arr elems, rest2)
        | none => none
      else if c = 'n' then
        if rest.take 3 = ['u', 'l', 'l'] then some (.null, rest.drop 3) else none
      else if c = 't' then
        if rest.take 3 = ['r', 'u', 'e'] then some (.bool true, rest.drop 3) else none
      else if c = 'f' then
        if rest.take 4 = ['a', 'l', 's', 'e'] then some (.bool false, rest.drop 4) else none
      else if c = '-' then
        match rest with
        | d :: _ =>
          if d.isDigit then
            let p := takeDigits rest
            some (.num (-(digitsToNat p.1 : Int)), p.2)
          else none
        | [] => none
      else if c.isDigit then
        let p := takeDigits (c :: rest)
        some (.num (digitsToNat p.1 : Int), p.2)
      else none

/-- Parse object members after the opening brace; `allowEnd` is false
right after a comma (no trailing comma, as in Python's `json.loads`). -/
def parseMembers : Nat → Bool → List Char → Option (List (String × Json) × List Char)
  | 0, _, _ => none
  | fuel + 1, allowEnd, cs =>
    match skipWs cs with
    | [] => none
    | c :: rest =>
      if c.toNat = 125 then
        if allowEnd then some ([], rest) else none
      else if c = '"' then
        match parseStringChars (rest.length + 1) rest with
        | some (kchars, rest2) =>
          match skipWs rest2 with
          | ':' :: rest3 =>
            match parseValue fuel rest3 with
            | some (v, rest4) =>
              match skipWs rest4 with
              | ',' :: rest5 =>
                match parseMembers fuel false rest5 with
                | some (fields, rest6) => some ((String.mk kchars, v) :: fields, rest6)
                | none => none
              | d :: rest5 =>
                if d.toNat = 125 then some ([(String.mk kchars, v)], rest5) else none
              | [] => none
            | none => none
          | _ => none
        | none => none
      else none

/-- Parse array elements after the opening bracket; `allowEnd` is false
right after a comma. -/
def parseElems : Nat → Bool → List Char → Option (List Json × List Char)
  | 0, _, _ => none
  | fuel + 1, allowEnd, cs =>
    match skipWs cs with
    | [] => none
    | c :: rest =>
      if c = ']' then
        if allowEnd then some ([], rest) else none
      else
        match parseValue fuel (c :: rest) with
        | some (v, rest2) =>
          match skipWs rest2 with
          | ',' :: rest3 =>
            match parseElems fuel false rest3 with
            | some (elems, rest4) => some (v :: elems, rest4)
            | none => none
          | ']' :: rest3 => some ([v], rest3)
          | _ => none
        | none => none

end

/-- The value an event's "body" key holds: a string, or some non-string
Python value (e.g. an already-parsed object). -/
inductive PyVal where
  | str (s : String) : PyVal
  | obj (j : Json) : PyVal

/-- `json.loads`: parses a string completely or raises `JSONDecodeError`;
on a non-string argument it raises a `TypeError`. -/
def json_loads : PyVal → Except PyExc Json
  | .str s =>
    match parseValue (s.length + 2) s.toList with
    | some (v, rest) =>
      if skipWs rest = [] then .ok v
      else .error ⟨"JSONDecodeError", "Extra data"⟩
    | none => .error ⟨"JSONDecodeError", "Expecting value"⟩
  | .obj _ => .error ⟨"TypeError", "the JSON object must be str, bytes or bytearray"⟩

/-! ### Python `str()` rendering, used by the f-string building the
agent prompt. -/

mutual

/-- Python `repr()` of a parsed-JSON value (containers render their
elements with `repr`, strings with single quotes). -/
def pyRepr : Json → String
  | .null => "None"
  | .bool true => "True"
  | .bool false => "False"
  | .num n => toString n
  | .str s => (Char.ofNat 39).toString ++ s ++ (Char.ofNat 39).toString
  | .arr elems => "[" ++ pyReprElems elems ++ "]"
  | .obj fields => "\x7b" ++ pyReprFields fields ++ "\x7d"

/-- Comma-separated `repr`s of list elements. -/
def pyReprElems : List Json → String
  | [] => ""
  | [v] => pyRepr v
  | v :: rest => pyRepr v ++ ", " ++ pyReprElems rest

/-- Comma-separated `repr`s of dict entries. -/
def pyReprFields : List (String × Json) → String
  | [] => ""
  | [(k, v)] => pyRepr (.str k) ++ ": " ++ pyRepr v
  | (k, v) :: rest => pyRepr (.str k) ++ ": " ++ pyRepr v ++ ", " ++ pyReprFields rest

end

/-- Python `str()`: the identity on strings, `repr`-style otherwise. -/
def pyStr : Json → String
  | .str s => s
  | v => pyRepr v

/-! ### The handler's environment, configuration and external world. -/

/-- The inbound Lambda event; only its "body" key is consulted
(`event.get('body', '{}')`), so the model carries just that key:
`none` means the event has no "body" key at all. -/
structure Event where
  body : Option PyVal

/-- The four module-level values read from the process environment by
`os.environ.get` (lines 14-17 of the source, executed at module load):
`None` when the variable is unset. -/
structure ModuleConfig where
  S3_BUCKET_NAME : Option String
  DYNAMODB_TABLE_NAME : Option String
  GOOGLE_API_KEY : Option String
  SERPAPI_API_KEY : Option String

/-- Python truthiness of an `os.environ.get` result: `None` and the
empty string are falsy. -/
def envTruthy : Option String → Bool
  | none => false
  | some s => !s.isEmpty

/-- All four configuration values are present and non-empty. -/
def ModuleConfig.allSet (cfg : ModuleConfig) : Bool :=
  envTruthy cfg.GOOGLE_API_KEY && envTruthy cfg.SERPAPI_API_KEY &&
    envTruthy cfg.S3_BUCKET_NAME && envTruthy cfg.DYNAMODB_TABLE_NAME

/-- Module load (source lines 14-17): snapshot the four environment
variables into module-level globals. -/
def loadModuleConfig (env : String → Option String) : ModuleConfig :=
  { S3_BUCKET_NAME := env "S3_BUCKET_NAME"
    DYNAMODB_TABLE_NAME := env "DYNAMODB_TABLE_NAME"
    GOOGLE_API_KEY := env "GOOGLE_API_KEY"
    SERPAPI_API_KEY := env "SERPAPI_API_KEY" }

/-- Arguments of an `s3_client.put_object` call. -/
structure S3Put where
  bucket : String
  key : String
  body : List UInt8
  contentType : String

/-- A DynamoDB item: the `Item` dict passed to `table.put_item`. -/
def DdbItem : Type := List (String × Json)

/-- The external world: outcomes of the SDK calls the handler makes.
`buildAgent` covers the construction of the LLM client, the search
wrapper and the agent (source lines 50-66); `runAgent` is `agent.run`;
`utcnow i` is the value of the i-th `datetime.datetime.utcnow()`
call of the invocation; `uuid4` the generated task identifier. -/
structure Ext where
  buildAgent : Except PyExc Unit
  runAgent : String → Except PyExc String
  s3PutObject : S3Put → Except PyExc Unit
  ddbPutItem : String → DdbItem → Except PyExc Unit
  uuid4 : String
  utcnow : Nat → String

/-- One attempted external call, tagged with whether it succeeded
(`ok = false` means the call raised). -/
inductive EffCall where
  | agentRun (prompt : String) (ok : Bool) : EffCall
  | s3Put (put : S3Put) (ok : Bool) : EffCall
  | ddbPut (table : String) (item : DdbItem) (ok : Bool) : EffCall

/-- An HTTP-style response: status code and the dict passed to
`json.dumps` for the body. -/
structure Response where
  statusCode : Nat
  body : Json

/-! ### The handler. -/

/-- Response for a missing Google API key (source line 23). -/
def missingGoogleResp : Response :=
  ⟨500, .obj [("error", .str "Server configuration error: Missing Google API Key.")]⟩

/-- Response for a missing SerpApi API key (source line 26). -/
def missingSerpResp : Response :=
  ⟨500, .obj [("error", .str "Server configuration error: Missing SerpApi API Key.")]⟩

/-- Response for a missing bucket or table name (source line 29). -/
def missingAwsResp : Response :=
  ⟨500, .obj [("error", .str "Server configuration error: Missing AWS resource names.")]⟩

/-- Response for a malformed JSON body (source lines 41-44). -/
def invalidJsonResp : Response :=
  ⟨400, .obj [("error", .str "Invalid JSON in request body.")]⟩

/-- Response for a missing or empty topic (source lines 36-39). -/
def missingTopicResp : Response :=
  ⟨400, .obj [("error", .str "Missing \"topic\" in request body.")]⟩

/-- The generic catch-all 500 response (source lines 127-130). -/
def genericErrorResp : Response :=
  ⟨500, .obj [("error", .str "An internal server error occurred. Check CloudWatch logs for details.")]⟩

/-- The fixed instruction template (source lines 68-77), an f-string
interpolating `str(research_topic)`. -/
def mkPrompt (research_topic : Json) : String :=
  "\n        You are a diligent AI Research Assistant. Your task is to investigate the following topic: \"" ++
    pyStr research_topic ++
    "\".\n        \n        Follow these steps:\n        1. Use the WebSearch tool to find relevant information.\n        2. Synthesize the information you find into a concise, well-structured report.\n        3. The final report should be your final answer. Do not include your thought process, just the report itself.\n        \n        Begin your work now.\n        "

/-- Modelled from the Python standard library: `traceback.format_exc()`
renders the active exception's traceback; the model keeps only that the
text is non-empty and determined by the exception. -/
def format_exc (e : PyExc) : String :=
  "Traceback (most recent call last):\n" ++ e.kind ++ ": " ++ e.msg ++ "\n"

/-- UTF-8 encoding, `final_report.encode('utf-8')`. -/
def utf8Bytes (s : String) : List UInt8 :=
  s.toUTF8.toList

/-- The 200 response of a completed task (source lines 101-109). -/
def successResp (task_id s3_bucket s3_key : String) : Response :=
  ⟨200, .obj [("message", .str "Research task completed successfully!"),
              ("task_id", .str task_id), ("s3_bucket", .str s3_bucket),
              ("s3_key", .str s3_key)]⟩

/-- The `Item` dict of the COMPLETED `put_item` (source lines 91-97). -/
def completedItem (task_id : String) (research_topic : Json) (s3_file_key ts : String) :
    DdbItem :=
  [("task_id", .str task_id), ("research_topic", research_topic),
   ("s3_report_key", .str s3_file_key), ("status", .str "COMPLETED"),
   ("completed_at", .str ts)]

/-- The `Item` dict of the FAILED `put_item` (source lines 119-125). -/
def failedItem (task_id : String) (research_topic : Json) (error_trace ts : String) :
    DdbItem :=
  [("task_id", .str task_id), ("research_topic", research_topic),
   ("status", .str "FAILED"), ("error_message", .str error_trace),
   ("completed_at", .str ts)]

/-- The body of the handler's main `try` block (source lines 49-109):
construct the agent, run it, write the report object, write the
COMPLETED record, build the 200 response. Returns the outcome (a
response, or the exception that escaped), the attempted external calls
in order, and how many `utcnow()` calls were made. -/
def tryBlock (ext : Ext) (bucket tbl task_id : String) (research_topic : Json) :
    Except PyExc Response × List EffCall × Nat :=
  match ext.buildAgent with
  | .error e => (.error e, [], 0)
  | .ok _ =>
    let prompt := mkPrompt research_topic
    match ext.runAgent prompt with
    | .error e => (.error e, [.agentRun prompt false], 0)
    | .ok final_report =>
      let s3_file_key := "reports/" ++ task_id ++ ".txt"
      let put : S3Put := ⟨bucket, s3_file_key, utf8Bytes final_report, "text/plain"⟩
      match ext.s3PutObject put with
      | .error e => (.error e, [.agentRun prompt true, .s3Put put false], 0)
      | .ok _ =>
        let item := completedItem task_id research_topic s3_file_key (ext.utcnow 0)
        match ext.ddbPutItem tbl item with
        | .error e =>
          (.error e, [.agentRun prompt true, .s3Put put true, .ddbPut tbl item false], 1)
        | .ok _ =>
          (.ok (successResp task_id bucket s3_file_key),
           [.agentRun prompt true, .s3Put put true, .ddbPut tbl item true], 1)

/-- The handler's `except Exception` clause (source lines 111-130):
write a FAILED record carrying the formatted traceback and return the
generic 500 response; a failure of this `put_item` itself is uncaught.
`calls` are the external calls already attempted by the `try` block and
`n` the number of `utcnow()` calls it made. -/
def exceptBlock (ext : Ext) (tbl task_id : String) (research_topic : Json) (e : PyExc)
    (calls : List EffCall) (n : Nat) : Except PyExc Response × List EffCall :=
  let item := failedItem task_id research_topic (format_exc e) (ext.utcnow n)
  match ext.ddbPutItem tbl item with
  | .error e2 => (.error e2, calls ++ [.ddbPut tbl item false])
  | .ok _ => (.ok genericErrorResp, calls ++ [.ddbPut tbl item true])

/-- The task phase (source lines 46-130): generate the task id, run the
`try` block, and on an escaped exception run the `except` clause. -/
def runTask (cfg : ModuleConfig) (ext : Ext) (research_topic : Json) :
    Except PyExc Response × List EffCall :=
  let task_id := ext.uuid4
  let bucket := (cfg.S3_BUCKET_NAME).getD ""
  let tbl := (cfg.DYNAMODB_TABLE_NAME).getD ""
  match tryBlock ext bucket tbl task_id research_topic with
  | (.ok resp, calls, _) => (.ok resp, calls)
  | (.error e, calls, n) => exceptBlock ext tbl task_id research_topic e calls n

/-- The handler (source lines 18-130). Configuration check, request
validation (only `json.JSONDecodeError` is caught there), then the task
phase. An exception the code does not catch is an `Except.error`
result. -/
def lambda_handler (cfg : ModuleConfig) (ext : Ext) (event : Event) :
    Except PyExc Response × List EffCall :=
  if !envTruthy cfg.GOOGLE_API_KEY then (.ok missingGoogleResp, [])
  else if !envTruthy cfg.SERPAPI_API_KEY then (.ok missingSerpResp, [])
  else if !envTruthy cfg.S3_BUCKET_NAME || !envTruthy cfg.DYNAMODB_TABLE_NAME then
    (.ok missingAwsResp, [])
  else
    match json_loads ((event.body).getD (.str "\x7b\x7d")) with
    | .error e =>
      if e.kind = "JSONDecodeError" then (.ok invalidJsonResp, [])
      else (.error e, [])
    | .ok body =>
      match py_get body "topic" with
      | .error e => (.error e, [])
      | .ok topicOpt =>
        let research_topic := topicOpt.getD .null
        if !research_topic.truthy then (.ok missingTopicResp, [])
        else runTask cfg ext research_topic

set_option linter.unusedVariables false in
/-- One process lifetime: the module is loaded with the environment as
it is at load time (`envAtLoad`), then the handler runs while the
environment holds `envAtInvoke`. The source reads the four variables
only at module load, so `envAtInvoke` is unused. -/
def invokeProcess (envAtLoad envAtInvoke : String → Option String) (ext : Ext)
    (event : Event) : Except PyExc Response × List EffCall :=
  lambda_handler (loadModuleConfig envAtLoad) ext event

/-! ### Trace observations used by the claims. -/

/-- The successful object-store writes of a trace. -/
def s3Writes (calls : List EffCall) : List S3Put :=
  calls.filterMap fun c =>
    match c with
    | .s3Put put true => some put
    | _ => none

/-- The successful metadata-store writes of a trace. -/
def ddbWrites (calls : List EffCall) : List (String × DdbItem) :=
  calls.filterMap fun c =>
    match c with
    | .ddbPut tbl item true => some (tbl, item)
    | _ => none

/-- All attempted metadata-store writes of a trace, with success flag. -/
def ddbAttempts (calls : List EffCall) : List (String × DdbItem × Bool) :=
  calls.filterMap fun c =>
    match c with
    | .ddbPut tbl item ok => some (tbl, item, ok)
    | _ => none

/-- The string value of an item's "status" attribute, when present. -/
def statusField (item : DdbItem) : Option String :=
  match lookupLast item "status" with
  | some (.str s) => some s
  | _ => none

/-- The string value of an item's "task_id" attribute, when present. -/
def taskIdField (item : DdbItem) : Option String :=
  match lookupLast item "task_id" with
  | some (.str s) => some s
  | _ => none

/-- Holds when at most one metadata write is attempted; when two are
attempted, the first must be a failed COMPLETED write and the second a
FAILED write to the same table for the same task identifier. -/
def ddbSecondAttemptOnlyAfterFailedCompleted (calls : List EffCall) : Bool :=
  match ddbAttempts calls with
  | [] => true
  | [_] => true
  | [(t1, it1, ok1), (t2, it2, _)] =>
    !ok1 && (statusField it1 == some "COMPLETED") && (statusField it2 == some "FAILED") &&
      (taskIdField it1 == taskIdField it2) && (t1 == t2)
  | _ => false

/-! ### Concrete fixtures used by witnesses and counterexamples. -/

/-- A fully populated configuration. -/
def cfgFull : ModuleConfig :=
  ⟨some "my-bucket", some "my-table", some "g-key", some "s-key"⟩

/-- An external world in which every call succeeds. -/
def extOk : Ext :=
  { buildAgent := .ok ()
    runAgent := fun _ => .ok "Coral bleaching report."
    s3PutObject := fun _ => .ok ()
    ddbPutItem := fun _ _ => .ok ()
    uuid4 := "11111111-2222-3333-4444-555555555555"
    utcnow := fun _ => "2026-01-01T00:00:00" }

/-- An external world whose agent run raises. -/
def extAgentFails : Ext :=
  { extOk with runAgent := fun _ => .error ⟨"RuntimeError", "agent blew up"⟩ }

/-- An external world in which exactly the COMPLETED `put_item` raises. -/
def extCompletedPutFails : Ext :=
  { extOk with
    ddbPutItem := fun _ item =>
      if statusField item = some "COMPLETED" then .error ⟨"ClientError", "put_item failed"⟩
      else .ok () }

/-- An event whose body is the JSON text for an object with a non-empty
topic. -/
def evTopic : Event := ⟨some (.str "\x7b\"topic\": \"coral\"\x7d")⟩

/-- An environment in which all variables are set and non-empty. -/
def envAllSet : String → Option String := fun _ => some "configured"

/-- An environment in which no variable is set. -/
def envUnset : String → Option String := fun _ => none

/-- Like `envAllSet` on the four configuration variables, different on
an unrelated variable. -/
def envAllSetPlus : String → Option String :=
  fun k => if k = "UNRELATED_VARIABLE" then some "extra" else some "configured"

/-! ### General lemmas about the embedded code. -/

/-- `ddbWrites` distributes over list append. -/
theorem ddbWrites_append (a b : List EffCall) :
    ddbWrites (a ++ b) = ddbWrites a ++ ddbWrites b := by
  simp [ddbWrites, List.filterMap_append]

/-- The formatted traceback is never the empty string. -/
theorem format_exc_ne_empty (e : PyExc) : format_exc e ≠ "" := by
  intro h
  have hlen := congrArg String.length h
  simp only [format_exc, String.length_append] at hlen
  have h1 : ("Traceback (most recent call last):\n").length = 35 := rfl
  have h2 : (": ").length = 2 := rfl
  have h3 : ("\n").length = 1 := rfl
  have h0 : ("").length = 0 := rfl
  omega

/-- A COMPLETED item's "status" attribute. -/
theorem statusField_completedItem (tid : String) (topic : Json) (key ts : String) :
    statusField (completedItem tid topic key ts) = some "COMPLETED" := rfl

/-- A FAILED item's "status" attribute. -/
theorem statusField_failedItem (tid : String) (topic : Json) (tr ts : String) :
    statusField (failedItem tid topic tr ts) = some "FAILED" := rfl

/-- A COMPLETED item's "task_id" attribute. -/
theorem taskIdField_completedItem (tid : String) (topic : Json) (key ts : String) :
    taskIdField (completedItem tid topic key ts) = some tid := rfl

/-- A FAILED item's "task_id" attribute. -/
theorem taskIdField_failedItem (tid : String) (topic : Json) (tr ts : String) :
    taskIdField (failedItem tid topic tr ts) = some tid := rfl

/-- A FAILED item has no "s3_report_key" attribute. -/
theorem failedItem_no_report_key (tid : String) (topic : Json) (tr ts : String) :
    lookupLast (failedItem tid topic tr ts) "s3_report_key" = none := rfl

/-- Parsing a string with `json.loads` fails only with a
`JSONDecodeError`. -/
theorem json_loads_str_error_kind (s : String) (e : PyExc)
    (h : json_loads (.str s) = .error e) : e.kind = "JSONDecodeError" := by
  have hdef : json_loads (.str s) =
      (match parseValue (s.length + 2) s.toList with
       | some (v, rest) =>
         if skipWs rest = [] then Except.ok v
         else Except.error ⟨"JSONDecodeError", "Extra data"⟩
       | none => Except.error ⟨"JSONDecodeError", "Expecting value"⟩) := rfl
  rw [hdef] at h
  split at h
  · split at h
    · cases h
    · cases h
      rfl
  · cases h
    rfl

/-- The `except` clause either returns the generic 500 after a
successful FAILED write, or re-raises the `put_item` failure after an
unsuccessful one; either way exactly one FAILED write is attempted. -/
theorem exceptBlock_shapes (ext : Ext) (tbl tid : String) (topic : Json) (e : PyExc)
    (calls : List EffCall) (n : Nat) :
    exceptBlock ext tbl tid topic e calls n =
      (.ok genericErrorResp,
       calls ++ [.ddbPut tbl (failedItem tid topic (format_exc e) (ext.utcnow n)) true]) ∨
    ∃ e2, exceptBlock ext tbl tid topic e calls n =
      (.error e2,
       calls ++ [.ddbPut tbl (failedItem tid topic (format_exc e) (ext.utcnow n)) false]) := by
  rcases hd : ext.ddbPutItem tbl (failedItem tid topic (format_exc e) (ext.utcnow n)) with e2 | u
  · right
    exact ⟨e2, by simp [exceptBlock, hd]⟩
  · left
    simp [exceptBlock, hd]

/-- The five possible outcomes of the `try` block: success, or an
exception escaping from agent construction, the agent run, the report
write, or the COMPLETED registry write. -/
theorem tryBlock_shapes (ext : Ext) (bucket tbl tid : String) (topic : Json) :
    (∃ report, tryBlock ext bucket tbl tid topic =
       (.ok (successResp tid bucket ("reports/" ++ tid ++ ".txt")),
        [.agentRun (mkPrompt topic) true,
         .s3Put ⟨bucket, "reports/" ++ tid ++ ".txt", utf8Bytes report, "text/plain"⟩ true,
         .ddbPut tbl (completedItem tid topic ("reports/" ++ tid ++ ".txt") (ext.utcnow 0)) true],
        1)) ∨
    (∃ e, tryBlock ext bucket tbl tid topic = (.error e, [], 0)) ∨
    (∃ e, tryBlock ext bucket tbl tid topic =
       (.error e, [.agentRun (mkPrompt topic) false], 0)) ∨
    (∃ e report, tryBlock ext bucket tbl tid topic =
       (.error e,
        [.agentRun (mkPrompt topic) true,
         .s3Put ⟨bucket, "reports/" ++ tid ++ ".txt", utf8Bytes report, "text/plain"⟩ false],
        0)) ∨
    (∃ e report, tryBlock ext bucket tbl tid topic =
       (.error e,
        [.agentRun (mkPrompt topic) true,
         .s3Put ⟨bucket, "reports/" ++ tid ++ ".txt", utf8Bytes report, "text/plain"⟩ true,
         .ddbPut tbl (completedItem tid topic ("reports/" ++ tid ++ ".txt") (ext.utcnow 0)) false],
        1)) := by
  rcases hb : ext.buildAgent with e | u
  · right; left
    exact ⟨e, by simp [tryBlock, hb]⟩
  · rcases hr : ext.runAgent (mkPrompt topic) with e | report
    · right; right; left
      exact ⟨e, by simp [tryBlock, hb, hr]⟩
    · rcases hs : ext.s3PutObject
          ⟨bucket, "reports/" ++ tid ++ ".txt", utf8Bytes report, "text/plain"⟩ with e | u2
      · right; right; right; left
        exact ⟨e, report, by simp [tryBlock, hb, hr, hs]⟩
      · rcases hd : ext.ddbPutItem tbl
            (completedItem tid topic ("reports/" ++ tid ++ ".txt") (ext.utcnow 0)) with e | u3
        · right; right; right; right
          exact ⟨e, report, by simp [tryBlock, hb, hr, hs, hd]⟩
        · left
          exact ⟨report, by simp [tryBlock, hb, hr, hs, hd]⟩

/-- The validation phase: either one of the five early responses with no
external calls, an uncaught validation exception with no external calls,
or control reaches the task phase with a truthy topic. -/
theorem validation_cases (cfg : ModuleConfig) (ext : Ext) (event : Event) :
    (envTruthy cfg.GOOGLE_API_KEY = false ∧
       lambda_handler cfg ext event = (.ok missingGoogleResp, [])) ∨
    (envTruthy cfg.SERPAPI_API_KEY = false ∧
       lambda_handler cfg ext event = (.ok missingSerpResp, [])) ∨
    ((envTruthy cfg.S3_BUCKET_NAME = false ∨ envTruthy cfg.DYNAMODB_TABLE_NAME = false) ∧
       lambda_handler cfg ext event = (.ok missingAwsResp, [])) ∨
    lambda_handler cfg ext event = (.ok invalidJsonResp, []) ∨
    lambda_handler cfg ext event = (.ok missingTopicResp, []) ∨
    (∃ e, lambda_handler cfg ext event = (.error e, [])) ∨
    (∃ topic, topic.truthy = true ∧
       lambda_handler cfg ext event = runTask cfg ext topic) := by
  by_cases hg : envTruthy cfg.GOOGLE_API_KEY = true
  case neg =>
    left
    rw [Bool.not_eq_true] at hg
    exact ⟨hg, by simp [lambda_handler, hg]⟩
  by_cases hs : envTruthy cfg.SERPAPI_API_KEY = true
  case neg =>
    right; left
    rw [Bool.not_eq_true] at hs
    exact ⟨hs, by simp [lambda_handler, hg, hs]⟩
  by_cases hbk : envTruthy cfg.S3_BUCKET_NAME = true
  case neg =>
    right; right; left
    rw [Bool.not_eq_true] at hbk
    exact ⟨Or.inl hbk, by simp [lambda_handler, hg, hs, hbk]⟩
  by_cases htb : envTruthy cfg.DYNAMODB_TABLE_NAME = true
  case neg =>
    right; right; left
    rw [Bool.not_eq_true] at htb
    exact ⟨Or.inr htb, by simp [lambda_handler, hg, hs, hbk, htb]⟩
  rcases hj : json_loads ((event.body).getD (.str "\x7b\x7d")) with e | body
  · by_cases hk : e.kind = "JSONDecodeError"
    · right; right; right; left
      simp [lambda_handler, hg, hs, hbk, htb, hj, hk]
    · right; right; right; right; right; left
      exact ⟨e, by simp [lambda_handler, hg, hs, hbk, htb, hj, hk]⟩
  · rcases hp : py_get body "topic" with e | topicOpt
    · right; right; right; right; right; left
      exact ⟨e, by simp [lambda_handler, hg, hs, hbk, htb, hj, hp]⟩
    · by_cases ht : (topicOpt.getD .null).truthy = true
      · right; right; right; right; right; right
        exact ⟨topicOpt.getD .null, ht,
          by simp [lambda_handler, hg, hs, hbk, htb, hj, hp, ht]⟩
      · right; right; right; right; left
        rw [Bool.not_eq_true] at ht
        simp [lambda_handler, hg, hs, hbk, htb, hj, hp, ht]

/-- When the `try` block returns a response, `runTask` forwards it. -/
theorem runTask_ok (cfg : ModuleConfig) (ext : Ext) (topic : Json) (resp : Response)
    (calls : List EffCall) (k : Nat)
    (h : tryBlock ext (cfg.S3_BUCKET_NAME.getD "") (cfg.DYNAMODB_TABLE_NAME.getD "")
          ext.uuid4 topic = (.ok resp, calls, k)) :
    runTask cfg ext topic = (.ok resp, calls) := by
  simp [runTask, h]

/-- When the `try` block raises, `runTask` runs the `except` clause. -/
theorem runTask_err (cfg : ModuleConfig) (ext : Ext) (topic : Json) (e : PyExc)
    (calls : List EffCall) (n : Nat)
    (h : tryBlock ext (cfg.S3_BUCKET_NAME.getD "") (cfg.DYNAMODB_TABLE_NAME.getD "")
          ext.uuid4 topic = (.error e, calls, n)) :
    runTask cfg ext topic =
      exceptBlock ext (cfg.DYNAMODB_TABLE_NAME.getD "") ext.uuid4 topic e calls n := by
  simp [runTask, h]

/-- Any `runTask` outcome is the 200 success response, the generic 500
response, or an uncaught exception. -/
theorem runTask_resp_cases (cfg : ModuleConfig) (ext : Ext) (topic : Json) :
    (∃ calls, runTask cfg ext topic =
      (.ok (successResp ext.uuid4 (cfg.S3_BUCKET_NAME.getD "")
        ("reports/" ++ ext.uuid4 ++ ".txt")), calls)) ∨
    (∃ calls, runTask cfg ext topic = (.ok genericErrorResp, calls)) ∨
    (∃ e calls, runTask cfg ext topic = (.error e, calls)) := by
  rcases tryBlock_shapes ext (cfg.S3_BUCKET_NAME.getD "") (cfg.DYNAMODB_TABLE_NAME.getD "")
      ext.uuid4 topic with ⟨r, hsh⟩ | ⟨e, hsh⟩ | ⟨e, hsh⟩ | ⟨e, r, hsh⟩ | ⟨e, r, hsh⟩
  · left
    exact ⟨_, runTask_ok cfg ext topic _ _ _ hsh⟩
  all_goals {
    have hrt := runTask_err cfg ext topic e _ _ hsh
    rcases exceptBlock_shapes ext (cfg.DYNAMODB_TABLE_NAME.getD "") ext.uuid4 topic e _ _ with
      hex | ⟨e2, hex⟩
    · right; left
      exact ⟨_, by rw [hrt, hex]⟩
    · right; right
      exact ⟨e2, _, by rw [hrt, hex]⟩ }

/-! ### Claim theorems -/

/-- C1: with all four configuration values present, a valid JSON object
body with a truthy topic, and every external call succeeding, the
handler writes exactly one object — body the UTF-8 encoding of the
agent's report, key `reports/<task_id>.txt`, content type text/plain —
writes exactly one metadata record (the COMPLETED item carrying the
task_id, the topic, that report key and the timestamp) and returns the
200 response naming the message, task_id, bucket and key. -/
theorem success_path_exact
    (cfg : ModuleConfig) (ext : Ext) (event : Event) (pv : PyVal)
    (fields : List (String × Json)) (topic : Json) (report : String)
    (hcfg : cfg.allSet = true)
    (hbody : event.body = some pv)
    (hparse : json_loads pv = .ok (.obj fields))
    (htopic : lookupLast fields "topic" = some topic)
    (htruthy : topic.truthy = true)
    (hbuild : ext.buildAgent = .ok ())
    (hrun : ext.runAgent (mkPrompt topic) = .ok report)
    (hs3ok : ∀ put, ext.s3PutObject put = .ok ())
    (hddbok : ∀ tbl item, ext.ddbPutItem tbl item = .ok ()) :
    lambda_handler cfg ext event =
      (.ok (successResp ext.uuid4 (cfg.S3_BUCKET_NAME.getD "")
              ("reports/" ++ ext.uuid4 ++ ".txt")),
       [.agentRun (mkPrompt topic) true,
        .s3Put ⟨cfg.S3_BUCKET_NAME.getD "", "reports/" ++ ext.uuid4 ++ ".txt",
                utf8Bytes report, "text/plain"⟩ true,
        .ddbPut (cfg.DYNAMODB_TABLE_NAME.getD "")
          (completedItem ext.uuid4 topic ("reports/" ++ ext.uuid4 ++ ".txt")
            (ext.utcnow 0)) true]) ∧
    s3Writes (lambda_handler cfg ext event).2 =
      [⟨cfg.S3_BUCKET_NAME.getD "", "reports/" ++ ext.uuid4 ++ ".txt",
        utf8Bytes report, "text/plain"⟩] ∧
    ddbWrites (lambda_handler cfg ext event).2 =
      [(cfg.DYNAMODB_TABLE_NAME.getD "",
        completedItem ext.uuid4 topic ("reports/" ++ ext.uuid4 ++ ".txt")
          (ext.utcnow 0))] := by
  simp only [ModuleConfig.allSet, Bool.and_eq_true] at hcfg
  obtain ⟨⟨⟨hg, hsk⟩, hbk⟩, htb⟩ := hcfg
  have hmain : lambda_handler cfg ext event =
      (.ok (successResp ext.uuid4 (cfg.S3_BUCKET_NAME.getD "")
              ("reports/" ++ ext.uuid4 ++ ".txt")),
       [.agentRun (mkPrompt topic) true,
        .s3Put ⟨cfg.S3_BUCKET_NAME.getD "", "reports/" ++ ext.uuid4 ++ ".txt",
                utf8Bytes report, "text/plain"⟩ true,
        .ddbPut (cfg.DYNAMODB_TABLE_NAME.getD "")
          (completedItem ext.uuid4 topic ("reports/" ++ ext.uuid4 ++ ".txt")
            (ext.utcnow 0)) true]) := by
    simp [lambda_handler, hg, hsk, hbk, htb, hbody, hparse, py_get, htopic, htruthy,
          runTask, tryBlock, hbuild, hrun, hs3ok, hddbok]
  refine ⟨hmain, ?_, ?_⟩ <;> rw [hmain] <;> simp [s3Writes, ddbWrites]

/-- C1 witness: the success path on concrete inputs. -/
theorem success_path_exact_witness :
    lambda_handler cfgFull extOk evTopic =
      (.ok (successResp "11111111-2222-3333-4444-555555555555" "my-bucket"
              "reports/11111111-2222-3333-4444-555555555555.txt"),
       [.agentRun (mkPrompt (.str "coral")) true,
        .s3Put ⟨"my-bucket", "reports/11111111-2222-3333-4444-555555555555.txt",
                utf8Bytes "Coral bleaching report.", "text/plain"⟩ true,
        .ddbPut "my-table"
          (completedItem "11111111-2222-3333-4444-555555555555" (.str "coral")
            "reports/11111111-2222-3333-4444-555555555555.txt"
            "2026-01-01T00:00:00") true]) ∧
    s3Writes (lambda_handler cfgFull extOk evTopic).2 =
      [⟨"my-bucket", "reports/11111111-2222-3333-4444-555555555555.txt",
        utf8Bytes "Coral bleaching report.", "text/plain"⟩] ∧
    ddbWrites (lambda_handler cfgFull extOk evTopic).2 =
      [("my-table",
        completedItem "11111111-2222-3333-4444-555555555555" (.str "coral")
          "reports/11111111-2222-3333-4444-555555555555.txt"
          "2026-01-01T00:00:00")] :=
  success_path_exact cfgFull extOk evTopic (.str "\x7b\"topic\": \"coral\"\x7d")
    [("topic", .str "coral")] (.str "coral") "Coral bleaching report."
    rfl rfl rfl rfl rfl rfl rfl (fun _ => rfl) (fun _ _ => rfl)

/-- C2: when an exception escapes the `try` block (agent construction,
agent run, report write, or the COMPLETED registry write) and the FAILED
`put_item` itself succeeds, the handler performs exactly one successful
metadata write — the FAILED item, carrying the task_id, the topic,
status FAILED, the non-empty formatted traceback as error message, a
timestamp and no report key — and returns the generic 500 response. -/
theorem failure_path_exact
    (cfg : ModuleConfig) (ext : Ext) (event : Event) (pv : PyVal)
    (fields : List (String × Json)) (topic : Json) (e : PyExc)
    (calls : List EffCall) (n : Nat)
    (hcfg : cfg.allSet = true)
    (hbody : event.body = some pv)
    (hparse : json_loads pv = .ok (.obj fields))
    (htopic : lookupLast fields "topic" = some topic)
    (htruthy : topic.truthy = true)
    (htry : tryBlock ext (cfg.S3_BUCKET_NAME.getD "") (cfg.DYNAMODB_TABLE_NAME.getD "")
              ext.uuid4 topic = (.error e, calls, n))
    (hddbF : ∀ item, statusField item = some "FAILED" →
              ext.ddbPutItem (cfg.DYNAMODB_TABLE_NAME.getD "") item = .ok ()) :
    (lambda_handler cfg ext event).1 = .ok genericErrorResp ∧
    genericErrorResp.statusCode = 500 ∧
    ddbWrites (lambda_handler cfg ext event).2 =
      [(cfg.DYNAMODB_TABLE_NAME.getD "",
        failedItem ext.uuid4 topic (format_exc e) (ext.utcnow n))] ∧
    taskIdField (failedItem ext.uuid4 topic (format_exc e) (ext.utcnow n)) =
      some ext.uuid4 ∧
    lookupLast (failedItem ext.uuid4 topic (format_exc e) (ext.utcnow n))
      "research_topic" = some topic ∧
    statusField (failedItem ext.uuid4 topic (format_exc e) (ext.utcnow n)) =
      some "FAILED" ∧
    lookupLast (failedItem ext.uuid4 topic (format_exc e) (ext.utcnow n))
      "error_message" = some (.str (format_exc e)) ∧
    format_exc e ≠ "" ∧
    lookupLast (failedItem ext.uuid4 topic (format_exc e) (ext.utcnow n))
      "completed_at" = some (.str (ext.utcnow n)) ∧
    lookupLast (failedItem ext.uuid4 topic (format_exc e) (ext.utcnow n))
      "s3_report_key" = none := by
  simp only [ModuleConfig.allSet, Bool.and_eq_true] at hcfg
  obtain ⟨⟨⟨hg, hsk⟩, hbk⟩, htb⟩ := hcfg
  have hcalls : ddbWrites calls = [] := by
    rcases tryBlock_shapes ext (cfg.S3_BUCKET_NAME.getD "")
        (cfg.DYNAMODB_TABLE_NAME.getD "") ext.uuid4 topic with
      ⟨r, hsh⟩ | ⟨e2, hsh⟩ | ⟨e2, hsh⟩ | ⟨e2, r, hsh⟩ | ⟨e2, r, hsh⟩ <;>
      rw [htry] at hsh <;> simp only [Prod.mk.injEq] at hsh
    · exact absurd hsh.1 (by simp)
    · rw [hsh.2.1]
      rfl
    · rw [hsh.2.1]
      rfl
    · rw [hsh.2.1]
      rfl
    · rw [hsh.2.1]
      simp [ddbWrites]
  have hput := hddbF (failedItem ext.uuid4 topic (format_exc e) (ext.utcnow n))
    (statusField_failedItem _ _ _ _)
  have hmain : lambda_handler cfg ext event =
      (.ok genericErrorResp,
       calls ++ [.ddbPut (cfg.DYNAMODB_TABLE_NAME.getD "")
         (failedItem ext.uuid4 topic (format_exc e) (ext.utcnow n)) true]) := by
    simp [lambda_handler, hg, hsk, hbk, htb, hbody, hparse, py_get, htopic, htruthy,
          runTask, htry, exceptBlock, hput]
  refine ⟨by rw [hmain], rfl, ?_, rfl, rfl, rfl, rfl, format_exc_ne_empty e, rfl, rfl⟩
  rw [hmain]
  show ddbWrites _ = _
  rw [ddbWrites_append, hcalls]
  rfl

/-- C2 witness: the failure path on concrete inputs (the agent run
raises). -/
theorem failure_path_exact_witness :
    (lambda_handler cfgFull extAgentFails evTopic).1 = .ok genericErrorResp ∧
    genericErrorResp.statusCode = 500 ∧
    ddbWrites (lambda_handler cfgFull extAgentFails evTopic).2 =
      [("my-table",
        failedItem "11111111-2222-3333-4444-555555555555" (.str "coral")
          (format_exc ⟨"RuntimeError", "agent blew up"⟩) "2026-01-01T00:00:00")] ∧
    taskIdField (failedItem "11111111-2222-3333-4444-555555555555" (.str "coral")
        (format_exc ⟨"RuntimeError", "agent blew up"⟩) "2026-01-01T00:00:00") =
      some "11111111-2222-3333-4444-555555555555" ∧
    lookupLast (failedItem "11111111-2222-3333-4444-555555555555" (.str "coral")
        (format_exc ⟨"RuntimeError", "agent blew up"⟩) "2026-01-01T00:00:00")
      "research_topic" = some (.str "coral") ∧
    statusField (failedItem "11111111-2222-3333-4444-555555555555" (.str "coral")
        (format_exc ⟨"RuntimeError", "agent blew up"⟩) "2026-01-01T00:00:00") =
      some "FAILED" ∧
    lookupLast (failedItem "11111111-2222-3333-4444-555555555555" (.str "coral")
        (format_exc ⟨"RuntimeError", "agent blew up"⟩) "2026-01-01T00:00:00")
      "error_message" = some (.str (format_exc ⟨"RuntimeError", "agent blew up"⟩)) ∧
    format_exc ⟨"RuntimeError", "agent blew up"⟩ ≠ "" ∧
    lookupLast (failedItem "11111111-2222-3333-4444-555555555555" (.str "coral")
        (format_exc ⟨"RuntimeError", "agent blew up"⟩) "2026-01-01T00:00:00")
      "completed_at" = some (.str "2026-01-01T00:00:00") ∧
    lookupLast (failedItem "11111111-2222-3333-4444-555555555555" (.str "coral")
        (format_exc ⟨"RuntimeError", "agent blew up"⟩) "2026-01-01T00:00:00")
      "s3_report_key" = none :=
  failure_path_exact cfgFull extAgentFails evTopic
    (.str "\x7b\"topic\": \"coral\"\x7d") [("topic", .str "coral")] (.str "coral")
    ⟨"RuntimeError", "agent blew up"⟩
    [.agentRun (mkPrompt (.str "coral")) false] 0
    rfl rfl rfl rfl rfl rfl (fun _ _ => rfl)

/-- C3: with configuration present, a string body that fails JSON
parsing yields the 400 "Invalid JSON" response, and a body parsing to
an object with no truthy "topic" yields the 400 "Missing topic"
response; in both cases no external call is made. -/
theorem bad_request_rejected (cfg : ModuleConfig) (ext : Ext)
    (hcfg : cfg.allSet = true) :
    (∀ s e, json_loads (.str s) = .error e →
      lambda_handler cfg ext ⟨some (.str s)⟩ = (.ok invalidJsonResp, [])) ∧
    (∀ pv fields, json_loads pv = .ok (.obj fields) →
      ((lookupLast fields "topic").getD .null).truthy = false →
      lambda_handler cfg ext ⟨some pv⟩ = (.ok missingTopicResp, [])) := by
  simp only [ModuleConfig.allSet, Bool.and_eq_true] at hcfg
  obtain ⟨⟨⟨hg, hsk⟩, hbk⟩, htb⟩ := hcfg
  constructor
  · intro s e hparse
    have hkind := json_loads_str_error_kind s e hparse
    simp [lambda_handler, hg, hsk, hbk, htb, hparse, hkind]
  · intro pv fields hparse htopic
    simp [lambda_handler, hg, hsk, hbk, htb, hparse, py_get, htopic]

/-- C3 witness: a malformed body, a body with no "topic" and a body
with an empty "topic", on concrete inputs. -/
theorem bad_request_rejected_witness :
    lambda_handler cfgFull extOk ⟨some (.str "not json")⟩ = (.ok invalidJsonResp, []) ∧
    lambda_handler cfgFull extOk ⟨some (.str "\x7b\x7d")⟩ = (.ok missingTopicResp, []) ∧
    lambda_handler cfgFull extOk ⟨some (.str "\x7b\"topic\": \"\"\x7d")⟩ =
      (.ok missingTopicResp, []) :=
  ⟨(bad_request_rejected cfgFull extOk rfl).1 "not json"
      ⟨"JSONDecodeError", "Expecting value"⟩ rfl,
   (bad_request_rejected cfgFull extOk rfl).2 (.str "\x7b\x7d") [] rfl rfl,
   (bad_request_rejected cfgFull extOk rfl).2 (.str "\x7b\"topic\": \"\"\x7d")
      [("topic", .str "")] rfl rfl⟩

/-- C4: each missing configuration value makes the handler return 500
with the message of that value's category and make no external call;
the Google key is checked first, then the SerpApi key, then the two AWS
resource names (which share one category message). -/
theorem config_check_fails_fast (cfg : ModuleConfig) (ext : Ext) (event : Event) :
    (envTruthy cfg.GOOGLE_API_KEY = false →
      lambda_handler cfg ext event = (.ok missingGoogleResp, [])) ∧
    (envTruthy cfg.GOOGLE_API_KEY = true → envTruthy cfg.SERPAPI_API_KEY = false →
      lambda_handler cfg ext event = (.ok missingSerpResp, [])) ∧
    (envTruthy cfg.GOOGLE_API_KEY = true → envTruthy cfg.SERPAPI_API_KEY = true →
      envTruthy cfg.S3_BUCKET_NAME = false →
      lambda_handler cfg ext event = (.ok missingAwsResp, [])) ∧
    (envTruthy cfg.GOOGLE_API_KEY = true → envTruthy cfg.SERPAPI_API_KEY = true →
      envTruthy cfg.DYNAMODB_TABLE_NAME = false →
      lambda_handler cfg ext event = (.ok missingAwsResp, [])) := by
  refine ⟨fun h1 => ?_, fun h1 h2 => ?_, fun h1 h2 h3 => ?_, fun h1 h2 h3 => ?_⟩
  · simp [lambda_handler, h1]
  · simp [lambda_handler, h1, h2]
  · simp [lambda_handler, h1, h2, h3]
  · simp [lambda_handler, h1, h2, h3]

/-- C4 witness: each of the four values missing on its own, on concrete
configurations. -/
theorem config_check_fails_fast_witness :
    lambda_handler ⟨some "b", some "t", none, some "s"⟩ extOk evTopic =
      (.ok missingGoogleResp, []) ∧
    lambda_handler ⟨some "b", some "t", some "g", some ""⟩ extOk evTopic =
      (.ok missingSerpResp, []) ∧
    lambda_handler ⟨none, some "t", some "g", some "s"⟩ extOk evTopic =
      (.ok missingAwsResp, []) ∧
    lambda_handler ⟨some "b", none, some "g", some "s"⟩ extOk evTopic =
      (.ok missingAwsResp, []) :=
  ⟨(config_check_fails_fast _ extOk evTopic).1 rfl,
   (config_check_fails_fast _ extOk evTopic).2.1 rfl rfl,
   (config_check_fails_fast _ extOk evTopic).2.2.1 rfl rfl rfl,
   (config_check_fails_fast _ extOk evTopic).2.2.2 rfl rfl rfl⟩

/-- C9: an event with no "body" key defaults to the string `"{}"`, which
parses to the empty object, so the handler returns the 400 "Missing
topic" response with no store write — it neither crashes nor returns
500. -/
theorem missing_body_key_means_missing_topic (cfg : ModuleConfig) (ext : Ext)
    (hcfg : cfg.allSet = true) :
    lambda_handler cfg ext ⟨none⟩ = (.ok missingTopicResp, []) := by
  simp only [ModuleConfig.allSet, Bool.and_eq_true] at hcfg
  obtain ⟨⟨⟨hg, hsk⟩, hbk⟩, htb⟩ := hcfg
  have hparse : json_loads (.str "\x7b\x7d") = .ok (.obj []) := rfl
  simp [lambda_handler, hg, hsk, hbk, htb, hparse, py_get, lookupLast, Json.truthy]

/-- C9 witness: the no-body event on a concrete configuration. -/
theorem missing_body_key_means_missing_topic_witness :
    lambda_handler cfgFull extOk ⟨none⟩ = (.ok missingTopicResp, []) :=
  missing_body_key_means_missing_topic cfgFull extOk rfl

/-- C10: an event whose "body" value is not a string (here an
already-parsed object) makes `json.loads` raise a `TypeError`, which
neither `except` clause catches: the handler raises, returning no
response, and no external call is made. -/
theorem nonstring_body_raises_typeerror :
    lambda_handler cfgFull extOk ⟨some (.obj (.obj [("topic", .str "x")]))⟩ =
      (.error ⟨"TypeError", "the JSON object must be str, bytes or bytearray"⟩, []) := rfl

/-- C6: with configuration present, every 500 response the handler
returns is the fixed generic-error object — a constant independent of
the exception, so the caller never sees the stack trace or any
exception detail. -/
theorem internal_error_body_generic (cfg : ModuleConfig) (ext : Ext) (event : Event)
    (resp : Response) (hcfg : cfg.allSet = true)
    (hok : (lambda_handler cfg ext event).1 = .ok resp)
    (h500 : resp.statusCode = 500) :
    resp = genericErrorResp := by
  simp only [ModuleConfig.allSet, Bool.and_eq_true] at hcfg
  obtain ⟨⟨⟨hg, hsk⟩, hbk⟩, htb⟩ := hcfg
  rcases validation_cases cfg ext event with
    ⟨hc, hres⟩ | ⟨hc, hres⟩ | ⟨hc, hres⟩ | hres | hres | ⟨e, hres⟩ | ⟨topic, htr, hres⟩
  · rw [hg] at hc
    cases hc
  · rw [hsk] at hc
    cases hc
  · rcases hc with hc | hc
    · rw [hbk] at hc
      cases hc
    · rw [htb] at hc
      cases hc
  · rw [hres] at hok
    cases hok
    exact absurd h500 (by decide)
  · rw [hres] at hok
    cases hok
    exact absurd h500 (by decide)
  · rw [hres] at hok
    cases hok
  · rw [hres] at hok
    rcases runTask_resp_cases cfg ext topic with ⟨calls, hrt⟩ | ⟨calls, hrt⟩ | ⟨e, calls, hrt⟩
    · rw [hrt] at hok
      cases hok
      simp [successResp] at h500
    · rw [hrt] at hok
      cases hok
      rfl
    · rw [hrt] at hok
      cases hok

/-- C6 witness: a concrete internal failure; the 500 body is the fixed
generic object. -/
theorem internal_error_body_generic_witness :
    cfgFull.allSet = true ∧
    (lambda_handler cfgFull extAgentFails evTopic).1 = .ok genericErrorResp ∧
    genericErrorResp.statusCode = 500 ∧
    genericErrorResp = genericErrorResp :=
  ⟨rfl, rfl, rfl,
   internal_error_body_generic cfgFull extAgentFails evTopic genericErrorResp rfl rfl rfl⟩

/-- C7 counterexample: the claim predicts behaviour determined by the
environment at invocation time, i.e. a process whose environment was
empty at module load but fully set at invocation behaves like one whose
environment was fully set all along; the code instead uses the
module-load snapshot, so the first returns the configuration-error 500
with no calls while the second completes the task. -/
theorem config_read_per_invocation_counterexample :
    invokeProcess envUnset envAllSet extOk evTopic ≠
      invokeProcess envAllSet envAllSet extOk evTopic := by
  intro h
  have hL : (invokeProcess envUnset envAllSet extOk evTopic).2.length = 0 := rfl
  have hR : (invokeProcess envAllSet envAllSet extOk evTopic).2.length = 3 := rfl
  rw [h, hR] at hL
  exact absurd hL (by decide)

/-- C7 amended: the four configuration values are read from the process
environment once, at module load; an invocation's behaviour is
determined by the load-time snapshot of those four variables and is
independent of the environment at invocation time. -/
theorem config_read_at_module_load
    (envL envL2 envI envI2 : String → Option String) (ext : Ext) (event : Event)
    (hb : envL "S3_BUCKET_NAME" = envL2 "S3_BUCKET_NAME")
    (ht : envL "DYNAMODB_TABLE_NAME" = envL2 "DYNAMODB_TABLE_NAME")
    (hg : envL "GOOGLE_API_KEY" = envL2 "GOOGLE_API_KEY")
    (hs : envL "SERPAPI_API_KEY" = envL2 "SERPAPI_API_KEY") :
    invokeProcess envL envI ext event = invokeProcess envL2 envI2 ext event := by
  unfold invokeProcess loadModuleConfig
  rw [hb, ht, hg, hs]

/-- C7 amended witness: two load-time environments agreeing on the four
variables (differing elsewhere), with arbitrary invocation-time
environments. -/
theorem config_read_at_module_load_witness :
    invokeProcess envAllSetPlus envUnset extOk evTopic =
      invokeProcess envAllSet envAllSet extOk evTopic :=
  config_read_at_module_load envAllSetPlus envAllSet envUnset envAllSet extOk evTopic
    rfl rfl rfl rfl

/-- C5 counterexample: when the COMPLETED `put_item` raises, the
invocation attempts two metadata writes for the same task identifier —
first the COMPLETED item (which fails), then the FAILED item — so an
invocation can attempt both a COMPLETED and a FAILED write for the same
task_id. -/
theorem single_registry_write_counterexample :
    ddbAttempts (lambda_handler cfgFull extCompletedPutFails evTopic).2 =
      [("my-table",
        completedItem "11111111-2222-3333-4444-555555555555" (.str "coral")
          "reports/11111111-2222-3333-4444-555555555555.txt" "2026-01-01T00:00:00",
        false),
       ("my-table",
        failedItem "11111111-2222-3333-4444-555555555555" (.str "coral")
          (format_exc ⟨"ClientError", "put_item failed"⟩) "2026-01-01T00:00:00",
        true)] ∧
    statusField (completedItem "11111111-2222-3333-4444-555555555555" (.str "coral")
        "reports/11111111-2222-3333-4444-555555555555.txt" "2026-01-01T00:00:00") =
      some "COMPLETED" ∧
    statusField (failedItem "11111111-2222-3333-4444-555555555555" (.str "coral")
        (format_exc ⟨"ClientError", "put_item failed"⟩) "2026-01-01T00:00:00") =
      some "FAILED" ∧
    taskIdField (completedItem "11111111-2222-3333-4444-555555555555" (.str "coral")
        "reports/11111111-2222-3333-4444-555555555555.txt" "2026-01-01T00:00:00") =
      taskIdField (failedItem "11111111-2222-3333-4444-555555555555" (.str "coral")
        (format_exc ⟨"ClientError", "put_item failed"⟩) "2026-01-01T00:00:00") :=
  ⟨rfl, rfl, rfl, rfl⟩

/-- C5 amended: per invocation at most one metadata write succeeds, and
a second metadata write is attempted only when the first attempt was the
COMPLETED write and it raised, in which case the second is the FAILED
write to the same table for the same task identifier. -/
theorem registry_writes_bounded (cfg : ModuleConfig) (ext : Ext) (event : Event) :
    (ddbWrites (lambda_handler cfg ext event).2).length ≤ 1 ∧
    ddbSecondAttemptOnlyAfterFailedCompleted (lambda_handler cfg ext event).2 = true := by
  rcases validation_cases cfg ext event with
    ⟨_, hres⟩ | ⟨_, hres⟩ | ⟨_, hres⟩ | hres | hres | ⟨e0, hres⟩ | ⟨topic, htr, hres⟩ <;>
    rw [hres]
  · exact ⟨by simp [ddbWrites], rfl⟩
  · exact ⟨by simp [ddbWrites], rfl⟩
  · exact ⟨by simp [ddbWrites], rfl⟩
  · exact ⟨by simp [ddbWrites], rfl⟩
  · exact ⟨by simp [ddbWrites], rfl⟩
  · exact ⟨by simp [ddbWrites], rfl⟩
  · rcases tryBlock_shapes ext (cfg.S3_BUCKET_NAME.getD "") (cfg.DYNAMODB_TABLE_NAME.getD "")
        ext.uuid4 topic with ⟨r, hsh⟩ | ⟨e, hsh⟩ | ⟨e, hsh⟩ | ⟨e, r, hsh⟩ | ⟨e, r, hsh⟩
    · rw [runTask_ok cfg ext topic _ _ _ hsh]
      exact ⟨by simp [ddbWrites], rfl⟩
    all_goals {
      rw [runTask_err cfg ext topic e _ _ hsh]
      rcases exceptBlock_shapes ext (cfg.DYNAMODB_TABLE_NAME.getD "") ext.uuid4 topic e _ _
        with hex | ⟨e2, hex⟩ <;> rw [hex] <;> constructor <;>
        simp [ddbWrites, ddbAttempts, ddbSecondAttemptOnlyAfterFailedCompleted,
              statusField_completedItem, statusField_failedItem,
              taskIdField_completedItem, taskIdField_failedItem] }

/-- C8: per invocation the attempted external calls form one of six
fixed sequences: none (configuration or validation stopped the run, or
an uncaught validation exception); or a FAILED registry write alone
(agent construction raised); or agent run, report write and COMPLETED
registry write each cut short at its failure point and followed by the
single terminal FAILED registry write; or the full success sequence
agent run, then report write, then COMPLETED registry write. No call is
ever retried, the report write always precedes the COMPLETED write, and
the FAILED write is always the last call of its invocation. -/
theorem control_flow_order (cfg : ModuleConfig) (ext : Ext) (event : Event) :
    (lambda_handler cfg ext event).2 = [] ∨
    (∃ tbl itF okF, statusField itF = some "FAILED" ∧
       (lambda_handler cfg ext event).2 = [.ddbPut tbl itF okF]) ∨
    (∃ p tbl itF okF, statusField itF = some "FAILED" ∧
       (lambda_handler cfg ext event).2 = [.agentRun p false, .ddbPut tbl itF okF]) ∨
    (∃ p put tbl itF okF, statusField itF = some "FAILED" ∧
       (lambda_handler cfg ext event).2 =
         [.agentRun p true, .s3Put put false, .ddbPut tbl itF okF]) ∨
    (∃ p put tbl itC itF okF, statusField itC = some "COMPLETED" ∧
       statusField itF = some "FAILED" ∧
       (lambda_handler cfg ext event).2 =
         [.agentRun p true, .s3Put put true, .ddbPut tbl itC false, .ddbPut tbl itF okF]) ∨
    (∃ p put tbl itC, statusField itC = some "COMPLETED" ∧
       (lambda_handler cfg ext event).2 =
         [.agentRun p true, .s3Put put true, .ddbPut tbl itC true]) := by
  rcases validation_cases cfg ext event with
    ⟨_, hres⟩ | ⟨_, hres⟩ | ⟨_, hres⟩ | hres | hres | ⟨e0, hres⟩ | ⟨topic, htr, hres⟩ <;>
    rw [hres]
  · exact Or.inl rfl
  · exact Or.inl rfl
  · exact Or.inl rfl
  · exact Or.inl rfl
  · exact Or.inl rfl
  · exact Or.inl rfl
  · rcases tryBlock_shapes ext (cfg.S3_BUCKET_NAME.getD "") (cfg.DYNAMODB_TABLE_NAME.getD "")
        ext.uuid4 topic with ⟨r, hsh⟩ | ⟨e, hsh⟩ | ⟨e, hsh⟩ | ⟨e, r, hsh⟩ | ⟨e, r, hsh⟩
    · rw [runTask_ok cfg ext topic _ _ _ hsh]
      exact Or.inr (Or.inr (Or.inr (Or.inr (Or.inr
        ⟨mkPrompt topic, _, _, _, statusField_completedItem _ _ _ _, rfl⟩))))
    · rw [runTask_err cfg ext topic e _ _ hsh]
      rcases exceptBlock_shapes ext (cfg.DYNAMODB_TABLE_NAME.getD "") ext.uuid4 topic e _ _
        with hex | ⟨e2, hex⟩ <;> rw [hex]
      · exact Or.inr (Or.inl ⟨_, _, true, statusField_failedItem _ _ _ _, rfl⟩)
      · exact Or.inr (Or.inl ⟨_, _, false, statusField_failedItem _ _ _ _, rfl⟩)
    · rw [runTask_err cfg ext topic e _ _ hsh]
      rcases exceptBlock_shapes ext (cfg.DYNAMODB_TABLE_NAME.getD "") ext.uuid4 topic e _ _
        with hex | ⟨e2, hex⟩ <;> rw [hex]
      · exact Or.inr (Or.inr (Or.inl
          ⟨mkPrompt topic, _, _, true, statusField_failedItem _ _ _ _, rfl⟩))
      · exact Or.inr (Or.inr (Or.inl
          ⟨mkPrompt topic, _, _, false, statusField_failedItem _ _ _ _, rfl⟩))
    · rw [runTask_err cfg ext topic e _ _ hsh]
      rcases exceptBlock_shapes ext (cfg.DYNAMODB_TABLE_NAME.getD "") ext.uuid4 topic e _ _
        with hex | ⟨e2, hex⟩ <;> rw [hex]
      · exact Or.inr (Or.inr (Or.inr (Or.inl
          ⟨mkPrompt topic, _, _, _, true, statusField_failedItem _ _ _ _, rfl⟩)))
      · exact Or.inr (Or.inr (Or.inr (Or.inl
          ⟨mkPrompt topic, _, _, _, false, statusField_failedItem _ _ _ _, rfl⟩)))
    · rw [runTask_err cfg ext topic e _ _ hsh]
      rcases exceptBlock_shapes ext (cfg.DYNAMODB_TABLE_NAME.getD "") ext.uuid4 topic e _ _
        with hex | ⟨e2, hex⟩ <;> rw [hex]
      · exact Or.inr (Or.inr (Or.inr (Or.inr (Or.inl
          ⟨mkPrompt topic, _, _, _, _, true, statusField_completedItem _ _ _ _,
           statusField_failedItem _ _ _ _, rfl⟩))))
      · exact Or.inr (Or.inr (Or.inr (Or.inr (Or.inl
          ⟨mkPrompt topic, _, _, _, _, false, statusField_completedItem _ _ _ _,
           statusField_failedItem _ _ _ _, rfl⟩))))

end LambdaFunction

